import Mathlib

/-!
Shallow embedding of `src/connectors.py` (class `Connector`): connection
descriptor construction, chunked dataframe writes (`set_df`, `__split_df`,
`__write_df`, `__write_split_df`), chunked reads (`get_df`), the engine
lazy-initialization prologues, and the connection lifecycle of `query`.

Machine arithmetic note: the source computes the chunk count as
`int(math.ceil(df.size / chunksize))` with Python float division; we embed
it with exact natural-number ceiling division, the idealization the spec
also uses. `chunksize = 0` would raise `ZeroDivisionError` in Python; all
theorems about the split path assume a positive chunksize.
-/

namespace Connectors

/-- Python-level exceptions relevant to the embedded code paths. -/
inductive PyErr
  | keyError
  | attributeError
  | backendError
deriving DecidableEq

/-! ### Connection descriptor construction (`__init__`, lines 35-44) -/

/-- Boolean test that the first list is a contiguous run inside the second,
used to embed the Python substring test `needle in hay`. -/
def beginsWith : List Char → List Char → Bool
  | [], _ => true
  | _ :: _, [] => false
  | a :: as, b :: bs => a == b && beginsWith as bs

/-- Scan of every suffix of the haystack for the needle at its front. -/
def hasSub (needle : List Char) : List Char → Bool
  | [] => beginsWith needle []
  | c :: cs => beginsWith needle (c :: cs) || hasSub needle cs

/-- Embeds the Python membership test `needle in hay` on strings. -/
def strIn (needle hay : String) : Bool := hasSub needle.data hay.data

/-- Characters urllib never escapes: ASCII letters, digits, and the four
marks of the ALWAYS_SAFE set. -/
def safeChar (c : Char) : Bool :=
  ('A' ≤ c && c ≤ 'Z') || ('a' ≤ c && c ≤ 'z') || ('0' ≤ c && c ≤ '9') ||
    c == '_' || c == '.' || c == '-' || c == '~'

/-- Uppercase hexadecimal digit for a value below 16. -/
def hexDigit (n : Nat) : Char :=
  if n < 10 then Char.ofNat ('0'.toNat + n) else Char.ofNat ('A'.toNat + n - 10)

/-- UTF-8 byte sequence of a Unicode code point. -/
def utf8Bytes (n : Nat) : List Nat :=
  if n < 0x80 then [n]
  else if n < 0x800 then [0xC0 + n / 0x40, 0x80 + n % 0x40]
  else if n < 0x10000 then
    [0xE0 + n / 0x1000, 0x80 + (n / 0x40) % 0x40, 0x80 + n % 0x40]
  else
    [0xF0 + n / 0x40000, 0x80 + (n / 0x1000) % 0x40, 0x80 + (n / 0x40) % 0x40,
      0x80 + n % 0x40]

/-- Percent-escape of one byte, `%XX` with uppercase hex. -/
def pctByte (b : Nat) : List Char := ['%', hexDigit (b / 16), hexDigit (b % 16)]

/-- Encoding of one character under `urllib.parse.quote_plus`: space becomes
`+`, safe characters pass through, everything else is percent-encoded
bytewise. -/
def quotePlusChar (c : Char) : List Char :=
  if c == ' ' then ['+']
  else if safeChar c then [c]
  else ((utf8Bytes c.toNat).map pctByte).flatten

/-- Embeds `urllib.parse.quote_plus` as used on the ODBC inner string. -/
def quotePlus (s : String) : String := String.mk (s.data.map quotePlusChar).flatten

/-- The constructor's `engine_args` mapping. Each field is optional so that a
missing key, which makes Python's `str.format` raise `KeyError`, is
representable. -/
structure EngineArgs where
  db_type : Option String
  address : Option String
  user : Option String
  password : Option String
  db_name : Option String
  driver : Option String
deriving DecidableEq

/-- Lookup of one key during `str.format`: a missing key raises `KeyError`. -/
def fmtField : Option String → Except PyErr String
  | some s => Except.ok s
  | none => Except.error PyErr.keyError

/-- Embeds `Connector.__init__` (lines 35-44): builds the connection
descriptor. The standard form is assembled first; when the db_type value
contains the substring `pyodbc` the descriptor is rebuilt around the
percent-encoded ODBC inner string. -/
def connInit (c : EngineArgs) : Except PyErr String :=
  match fmtField c.db_type with
  | Except.error e => Except.error e
  | Except.ok dbt =>
    match fmtField c.user with
    | Except.error e => Except.error e
    | Except.ok u =>
      match fmtField c.password with
      | Except.error e => Except.error e
      | Except.ok pw =>
        match fmtField c.address with
        | Except.error e => Except.error e
        | Except.ok ad =>
          if c.db_type.isSome then
            match fmtField c.db_name with
            | Except.error e => Except.error e
            | Except.ok dbn =>
              if strIn "pyodbc" dbt then
                match fmtField c.driver with
                | Except.error e => Except.error e
                | Except.ok drv =>
                  Except.ok (dbt ++ ":///?odbc_connect=" ++
                    quotePlus ("DRIVER=" ++ drv ++ ";SERVER=" ++ ad ++ ";DATABASE=" ++
                      dbn ++ ";UID=" ++ u ++ ";PWD=" ++ pw))
              else
                Except.ok (dbt ++ "://" ++ u ++ ":" ++ pw ++ "@" ++ ad ++ "/" ++ dbn)
          else
            Except.ok (dbt ++ "://" ++ u ++ ":" ++ pw ++ "@" ++ ad)

/-! ### Dataframes and the chunked write path (lines 70-97) -/

/-- A pandas dataframe, abstracted to its column count and its ordered rows;
`size` below is the pandas cell count `rows * cols`. -/
structure DF (α : Type) where
  cols : Nat
  rows : List α
deriving DecidableEq

/-- Total cell count, as in pandas `df.size`. -/
def DF.size (d : DF α) : Nat := d.rows.length * d.cols

/-- Natural-number ceiling division, the exact-arithmetic reading of
`int(math.ceil(a / b))`. -/
def ceilDiv (a b : Nat) : Nat := (a + b - 1) / b

/-- Size of the first piece when `numpy.array_split` cuts a length-`len` axis
into `n` parts: the quotient, plus one extra row while a remainder is left. -/
def chunkHead (len n : Nat) : Nat := len / n + if 0 < len % n then 1 else 0

/-- Sizes of all the pieces `numpy.array_split` makes when cutting a
length-`len` axis into `n` parts. -/
def arraySplitSizes : Nat → Nat → List Nat
  | _, 0 => []
  | len, n + 1 => chunkHead len (n + 1) :: arraySplitSizes (len - chunkHead len (n + 1)) n

/-- Cuts a list into consecutive pieces of the given sizes. -/
def splitBySizes : List α → List Nat → List (List α)
  | _, [] => []
  | l, s :: ss => l.take s :: splitBySizes (l.drop s) ss

/-- Embeds `numpy.array_split(l, n)` along the row axis. -/
def array_split (l : List α) (n : Nat) : List (List α) :=
  splitBySizes l (arraySplitSizes l.length n)

/-- Embeds `Connector.__split_df` (lines 81-83): chunk count is the ceiling
of cell count over chunksize, then the rows are array_split that many ways. -/
def split_df (d : DF α) (chunksize : Nat) : List (List α) :=
  array_split d.rows (ceilDiv d.size chunksize)

/-- Modes accepted by `pandas.DataFrame.to_sql` for `if_exists`. -/
inductive IfExists
  | replace
  | append
  | failMode
deriving DecidableEq

/-- One observed backend write: the destination table, the `if_exists` mode
passed to `to_sql`, and the rows written. -/
structure WriteCall (α : Type) where
  table : String
  mode : IfExists
  rows : List α
deriving DecidableEq

/-- Embeds `Connector.__write_df` (lines 70-72): one `to_sql` call, then
`return True`. The first component records the backend writes issued. -/
def write_df (table : String) (rows : List α) (mode : IfExists) :
    List (WriteCall α) × Bool :=
  ([⟨table, mode, rows⟩], true)

/-- Embeds `Connector.__write_split_df` (lines 74-79): the first chunk is
written with the caller's mode, `if_exists` is popped from the kwargs, and
every later chunk is written with mode `append`; then `return True`. The
empty case would be an `IndexError` at `dfs[0]` in Python; it is unreachable
from `set_df`, whose chunk count is at least 1. -/
def write_split_df (table : String) (dfs : List (List α)) (mode : IfExists) :
    List (WriteCall α) × Bool :=
  match dfs with
  | [] => ([], true)
  | d0 :: rest =>
    ((write_df table d0 mode).1 ++
      rest.map (fun d => ⟨table, IfExists.append, d⟩), true)

/-- Embeds `Connector.set_df` (lines 85-97): when a chunksize is given and
the cell count exceeds it, split and write the chunks; otherwise one whole
write with mode hard-coded to `replace`. Returns the writes issued and the
status boolean the method returns. -/
def set_df (table : String) (d : DF α) (if_exists : IfExists)
    (chunksize : Option Nat) : List (WriteCall α) × Bool :=
  match chunksize with
  | some cs =>
    if d.size > cs then write_split_df table ( split_df d cs) if_exists
    else write_df table d.rows IfExists.replace
  | none => write_df table d.rows IfExists.replace

/-! ### Chunked read path (`get_df`, lines 99-116) -/

/-- Embeds `itertools.islice(it, stop)`: `stop = None` takes everything. -/
def islice (l : List α) : Option Nat → List α
  | none => l
  | some n => l.take n

/-- Embeds `Connector.get_df` (lines 99-116). The input is the outcome of the
chunked `pandas.read_sql_table` cursor: either a hard backend failure, which
propagates, or the list of row-chunks it yields. `pd.concat` over the
islice'd chunks raises `ValueError` exactly when no chunk remains; that is
caught and turned into a `None` return, with a warning iff a logger is
configured (the second component records whether the warning fired). -/
def get_df (read : Except PyErr (List (List α))) (chunk_count : Option Nat)
    (hasLogger : Bool) : Except PyErr (Option (List α)) × Bool :=
  match read with
  | Except.error e => (Except.error e, false)
  | Except.ok dfs =>
    match islice dfs chunk_count with
    | [] => (Except.ok none, hasLogger)
    | c :: cs => (Except.ok (some ((c :: cs).flatten)), false)

/-! ### Engine presence and lazy initialization (lines 46-47, 99-139)

The engine attribute either exists (`some ()`) or was never created
(`none`). Reading `self.engine` when absent raises `AttributeError`; the
three methods guarded by `if not hasattr(self, 'engine')` initialize it
first. -/

/-- Embeds the attribute read `self.engine`. -/
def attr_engine : Option Unit → Except PyErr Unit
  | some e => Except.ok e
  | none => Except.error PyErr.attributeError

/-- Embeds the guarded prologue `if not hasattr(self, 'engine'):
self._init_engine()`. -/
def ensure_engine (engine : Option Unit) : Option Unit :=
  if engine.isSome then engine else some ()

/-- Engine resolution inside `set_df`: `__write_df` reads `self.engine`
directly at line 71 with no hasattr guard. -/
def set_df_engine (engine : Option Unit) : Except PyErr Unit := attr_engine engine

/-- Engine resolution inside `get_df`: line 103 reads `self.engine` directly
with no hasattr guard. -/
def get_df_engine (engine : Option Unit) : Except PyErr Unit := attr_engine engine

/-- Engine resolution inside `get_table_names` (lines 119-121): lazy init,
then use. -/
def get_table_names_engine (engine : Option Unit) : Except PyErr Unit :=
  attr_engine (ensure_engine engine)

/-- Engine resolution inside `query` (lines 126-128): lazy init, then use. -/
def query_engine (engine : Option Unit) : Except PyErr Unit :=
  attr_engine (ensure_engine engine)

/-- Engine resolution inside `df_query` (lines 137-139): lazy init, then
use. -/
def df_query_engine (engine : Option Unit) : Except PyErr Unit :=
  attr_engine (ensure_engine engine)

/-! ### Connection lifecycle of `query` (lines 125-134) -/

/-- Observable state for `query`: whether the engine attribute exists and how
many acquired connections have not been closed. -/
structure QueryState where
  hasEngine : Bool
  openConns : Nat
deriving DecidableEq

/-- Embeds `Connector.query` (lines 125-134) step by step: lazy engine init,
`connection = self.engine.connect()` (one more open connection),
`connection.execute(_query)` which either succeeds or raises a backend
error, and only on the success path the later `connection.close()`. There is
no try/finally around the execute call. -/
def query_run (s : QueryState) (execRaises : Bool) :
    Except PyErr Unit × QueryState :=
  let s1 : QueryState := ⟨true, s.openConns⟩
  let s2 : QueryState := ⟨s1.hasEngine, s1.openConns + 1⟩
  if execRaises then (Except.error PyErr.backendError, s2)
  else (Except.ok (), ⟨s2.hasEngine, s2.openConns - 1⟩)

/-! ### The shape claimed by the spec for the chunk partition -/

/-- Modelled from the claim's wording, for comparison with the source's
partition: the chunk sizes are all equal except that the last chunk may be
smaller than the others. -/
def specEqualChunksLastSmaller (sizes : List Nat) : Bool :=
  match sizes.dropLast with
  | [] => true
  | s :: _ => sizes.dropLast.all (fun x => x == s) && decide (sizes.getLastD 0 ≤ s)

/-! ### Support lemmas about the split -/

lemma chunkHead_le (len n : Nat) : chunkHead len (n + 1) ≤ len := by
  unfold chunkHead
  by_cases h : 0 < len % (n + 1)
  · simp only [if_pos h]
    have hlen : 0 < len := by
      rcases Nat.eq_zero_or_pos len with h0 | h0
      · subst h0; simp at h
      · exact h0
    rcases Nat.eq_zero_or_pos n with hn | hn
    · subst hn; simp [Nat.mod_one] at h
    · have h1 : len / (n + 1) < len := Nat.div_lt_self hlen (by omega)
      omega
  · simp only [if_neg h]
    simpa using Nat.div_le_self len (n + 1)

lemma arraySplitSizes_length (n : Nat) : ∀ len, (arraySplitSizes len n).length = n := by
  induction n with
  | zero => intro len; rfl
  | succ n ih =>
    intro len
    simp only [arraySplitSizes, List.length_cons]
    rw [ih]

lemma arraySplitSizes_sum (n : Nat) : ∀ len, 0 < n → (arraySplitSizes len n).sum = len := by
  induction n with
  | zero => intro len h; exact absurd h (lt_irrefl 0)
  | succ n ih =>
    intro len _
    simp only [arraySplitSizes, List.sum_cons]
    rcases Nat.eq_zero_or_pos n with hn | hn
    · subst hn
      simp [arraySplitSizes, chunkHead, Nat.mod_one, Nat.div_one]
    · have hle := chunkHead_le len n
      rw [ih _ hn]
      omega

lemma arraySplitSizes_eq_map (n : Nat) : ∀ len,
    arraySplitSizes len n =
      (List.range n).map (fun i => len / n + if i < len % n then 1 else 0) := by
  induction n with
  | zero => intro len; rfl
  | succ n ih =>
    intro len
    have hlen : (n + 1) * (len / (n + 1)) + len % (n + 1) = len := Nat.div_add_mod len (n + 1)
    have hrlt : len % (n + 1) < n + 1 := Nat.mod_lt len (Nat.succ_pos n)
    rw [List.range_succ_eq_map, List.map_cons, List.map_map]
    simp only [arraySplitSizes]
    congr 1
    rw [ih]
    rcases Nat.eq_zero_or_pos n with hn | hn
    · subst hn; rfl
    apply List.map_congr_left
    intro i hi
    rw [Nat.succ_mul] at hlen
    by_cases hr : 0 < len % (n + 1)
    · have hsub : len - chunkHead len (n + 1) = n * (len / (n + 1)) + (len % (n + 1) - 1) := by
        unfold chunkHead
        rw [if_pos hr]
        generalize len / (n + 1) = q at hlen ⊢
        generalize len % (n + 1) = r at hlen hr ⊢
        generalize n * q = p at hlen ⊢
        omega
      have hlt : len % (n + 1) - 1 < n := by omega
      rw [hsub, Nat.mul_add_div hn, Nat.mul_add_mod, Nat.div_eq_of_lt hlt, Nat.mod_eq_of_lt hlt]
      simp only [Function.comp]
      congr 1
      exact if_congr (by omega) rfl rfl
    · have hsub : len - chunkHead len (n + 1) = n * (len / (n + 1)) := by
        unfold chunkHead
        rw [if_neg hr]
        generalize len / (n + 1) = q at hlen ⊢
        generalize len % (n + 1) = r at hlen hr ⊢
        generalize n * q = p at hlen ⊢
        omega
      rw [hsub, Nat.mul_div_cancel_left _ hn, Nat.mul_mod_right]
      simp only [Function.comp]
      congr 1
      exact if_congr (by omega) rfl rfl

lemma splitBySizes_length (ss : List Nat) : ∀ (l : List α),
    (splitBySizes l ss).length = ss.length := by
  induction ss with
  | nil => intro l; rfl
  | cons s ss ih =>
    intro l
    simp only [splitBySizes, List.length_cons]
    rw [ih]

lemma splitBySizes_flatten (ss : List Nat) : ∀ (l : List α), ss.sum ≤ l.length →
    (splitBySizes l ss).flatten = l.take ss.sum := by
  induction ss with
  | nil => intro l _; rfl
  | cons s ss ih =>
    intro l h
    simp only [splitBySizes, List.flatten_cons, List.sum_cons] at h ⊢
    rw [ih (l.drop s) (by simp only [List.length_drop]; omega), List.take_add]

lemma splitBySizes_map_length (ss : List Nat) : ∀ (l : List α), ss.sum ≤ l.length →
    (splitBySizes l ss).map List.length = ss := by
  induction ss with
  | nil => intro l _; rfl
  | cons s ss ih =>
    intro l h
    simp only [splitBySizes, List.map_cons, List.sum_cons] at h ⊢
    congr 1
    · rw [List.length_take]
      omega
    · exact ih (l.drop s) (by simp only [List.length_drop]; omega)

lemma array_split_length (l : List α) (n : Nat) : (array_split l n).length = n := by
  unfold array_split
  rw [splitBySizes_length, arraySplitSizes_length]

lemma array_split_flatten (l : List α) (n : Nat) (hn : 0 < n) :
    (array_split l n).flatten = l := by
  unfold array_split
  rw [splitBySizes_flatten _ _ (by rw [arraySplitSizes_sum _ _ hn]),
    arraySplitSizes_sum _ _ hn, List.take_length]

lemma array_split_map_length (l : List α) (n : Nat) (hn : 0 < n) :
    (array_split l n).map List.length = arraySplitSizes l.length n := by
  unfold array_split
  exact splitBySizes_map_length _ _ (by rw [arraySplitSizes_sum _ _ hn])

lemma one_le_ceilDiv (a b : Nat) (ha : 0 < a) (hb : 0 < b) : 1 ≤ ceilDiv a b := by
  unfold ceilDiv
  rw [Nat.one_le_div_iff hb]
  omega

/-! ### Support lemmas about the connection descriptor -/

lemma connInit_std (dbt ad u pw dbn : String) (drv : Option String)
    (h : strIn "pyodbc" dbt = false) :
    connInit ⟨some dbt, some ad, some u, some pw, some dbn, drv⟩ =
      Except.ok (dbt ++ "://" ++ u ++ ":" ++ pw ++ "@" ++ ad ++ "/" ++ dbn) := by
  simp [connInit, fmtField, h]

lemma connInit_odbc (dbt ad u pw dbn drv : String) (h : strIn "pyodbc" dbt = true) :
    connInit ⟨some dbt, some ad, some u, some pw, some dbn, some drv⟩ =
      Except.ok (dbt ++ ":///?odbc_connect=" ++
        quotePlus ("DRIVER=" ++ drv ++ ";SERVER=" ++ ad ++ ";DATABASE=" ++ dbn ++
          ";UID=" ++ u ++ ";PWD=" ++ pw)) := by
  simp [connInit, fmtField, h]

/-! ### Claim theorems -/

/-- Claim C1: when the cell count of the table exceeds the chunksize, `set_df`
issues exactly `ceil(cell_count / chunksize)` backend writes; the first write
carries the caller-supplied `if_exists` mode, every later write carries mode
`append`, and the written chunks concatenated in write order reproduce the
table's rows in their original order. -/
theorem C1_split_write_calls {α : Type} (table : String) (d : DF α) (cs : Nat)
    (mode : IfExists) (hcs : 0 < cs) (hbig : cs < d.size) :
    ((set_df table d mode (some cs)).1).length = ceilDiv d.size cs ∧
    ((set_df table d mode (some cs)).1).head?.map WriteCall.mode = some mode ∧
    (∀ w ∈ ((set_df table d mode (some cs)).1).tail, w.mode = IfExists.append) ∧
    (((set_df table d mode (some cs)).1).map WriteCall.rows).flatten = d.rows := by
  have hpos : 0 < ceilDiv d.size cs := one_le_ceilDiv d.size cs (by omega) hcs
  have hlen : ( split_df d cs).length = ceilDiv d.size cs :=
    array_split_length d.rows (ceilDiv d.size cs)
  have hflat : ( split_df d cs).flatten = d.rows := array_split_flatten d.rows _ hpos
  obtain ⟨c0, rest, hsplit⟩ : ∃ c0 rest, split_df d cs = c0 :: rest := by
    cases h : split_df d cs with
    | nil => rw [h] at hlen; simp at hlen; omega
    | cons a as => exact ⟨a, as, rfl⟩
  have hset : (set_df table d mode (some cs)).1 =
      (⟨table, mode, c0⟩ : WriteCall α) :: rest.map (fun r => ⟨table, IfExists.append, r⟩) := by
    simp only [set_df]
    rw [if_pos hbig, hsplit]
    rfl
  refine ⟨?_, ?_, ?_, ?_⟩
  · rw [hset]
    rw [hsplit] at hlen
    simpa using hlen
  · rw [hset]
    rfl
  · rw [hset]
    intro w hw
    simp only [List.tail_cons, List.mem_map] at hw
    obtain ⟨r, _, hwEq⟩ := hw
    subst hwEq
    rfl
  · rw [hset]
    simp only [List.map_cons, List.map_map]
    have hcomp : (WriteCall.rows ∘ fun r => (⟨table, IfExists.append, r⟩ : WriteCall α)) = id := rfl
    rw [hcomp, List.map_id, ← hsplit]
    exact hflat

/-- Witness for C1 at a one-column five-row table with chunksize 2: three
writes, first with mode failMode, the rest appends, reassembling the rows. -/
theorem C1_split_write_calls_witness :
    (0 < 2 ∧ 2 < DF.size (⟨1, [0, 1, 2, 3, 4]⟩ : DF Nat)) ∧
    (((set_df "t" (⟨1, [0, 1, 2, 3, 4]⟩ : DF Nat) IfExists.failMode (some 2)).1).length =
        ceilDiv (DF.size (⟨1, [0, 1, 2, 3, 4]⟩ : DF Nat)) 2 ∧
      ((set_df "t" (⟨1, [0, 1, 2, 3, 4]⟩ : DF Nat) IfExists.failMode (some 2)).1).head?.map
          WriteCall.mode = some IfExists.failMode ∧
      (∀ w ∈ ((set_df "t" (⟨1, [0, 1, 2, 3, 4]⟩ : DF Nat) IfExists.failMode (some 2)).1).tail,
        w.mode = IfExists.append) ∧
      (((set_df "t" (⟨1, [0, 1, 2, 3, 4]⟩ : DF Nat) IfExists.failMode (some 2)).1).map
          WriteCall.rows).flatten = [0, 1, 2, 3, 4]) :=
  ⟨⟨by decide, by decide⟩,
    C1_split_write_calls "t" (⟨1, [0, 1, 2, 3, 4]⟩ : DF Nat) 2 IfExists.failMode
      (by decide) (by decide)⟩

/-- Claim C2: when no split is needed (cell count at most the chunksize, or a
null chunksize), `set_df` issues exactly one backend write, and that write
uses mode `replace` regardless of the caller-supplied mode. -/
theorem C2_unsplit_single_replace_write {α : Type} (table : String) (d : DF α)
    (mode : IfExists) (chunksize : Option Nat)
    (h : chunksize = none ∨ ∃ cs, chunksize = some cs ∧ d.size ≤ cs) :
    (set_df table d mode chunksize).1 = [⟨table, IfExists.replace, d.rows⟩] := by
  rcases h with rfl | ⟨cs, rfl, hle⟩
  · rfl
  · simp only [set_df]
    rw [if_neg (by omega)]
    rfl

/-- Witness for C2 at a two-column two-row table (four cells) with chunksize 5
and caller mode append: one write with mode replace. -/
theorem C2_unsplit_single_replace_write_witness :
    ((some 5 : Option Nat) = none ∨ ∃ cs, (some 5 : Option Nat) = some cs ∧
        DF.size (⟨2, [10, 20]⟩ : DF Nat) ≤ cs) ∧
    (set_df "t" (⟨2, [10, 20]⟩ : DF Nat) IfExists.append (some 5)).1 =
      [⟨"t", IfExists.replace, [10, 20]⟩] :=
  ⟨Or.inr ⟨5, rfl, by decide⟩,
    C2_unsplit_single_replace_write "t" (⟨2, [10, 20]⟩ : DF Nat) IfExists.append (some 5)
      (Or.inr ⟨5, rfl, by decide⟩)⟩

/-- Claim C3: the constructor builds the descriptor deterministically: the
postgresql example config yields exactly the standard URI, and any
ODBC-style config (db_type containing pyodbc) yields the db_type followed by
the odbc_connect wrapper around the percent-encoded inner DSN string. -/
theorem C3_connection_descriptors :
    connInit ⟨some "postgresql", some "localhost", some "u", some "p", some "testdb", none⟩ =
      Except.ok "postgresql://u:p@localhost/testdb" ∧
    (∀ dbt ad u pw dbn drv : String, strIn "pyodbc" dbt = true →
      connInit ⟨some dbt, some ad, some u, some pw, some dbn, some drv⟩ =
        Except.ok (dbt ++ ":///?odbc_connect=" ++
          quotePlus ("DRIVER=" ++ drv ++ ";SERVER=" ++ ad ++ ";DATABASE=" ++ dbn ++
            ";UID=" ++ u ++ ";PWD=" ++ pw))) :=
  ⟨by rfl, fun dbt ad u pw dbn drv h => connInit_odbc dbt ad u pw dbn drv h⟩

/-- Witness for C3 at the spec's mssql+pyodbc example config. -/
theorem C3_connection_descriptors_witness :
    strIn "pyodbc" "mssql+pyodbc" = true ∧
    connInit ⟨some "mssql+pyodbc", some "host", some "u", some "p", some "db",
        some "ODBC Driver 17"⟩ =
      Except.ok ("mssql+pyodbc" ++ ":///?odbc_connect=" ++
        quotePlus ("DRIVER=" ++ "ODBC Driver 17" ++ ";SERVER=" ++ "host" ++ ";DATABASE=" ++
          "db" ++ ";UID=" ++ "u" ++ ";PWD=" ++ "p")) :=
  ⟨by rfl,
    C3_connection_descriptors.2 "mssql+pyodbc" "host" "u" "p" "db" "ODBC Driver 17" (by rfl)⟩

/-- Claim C4 fails on the code: starting with an engine and no open
connections, a raising execution leaves one connection open, because the
`close` call at line 133 is only reached on the success path. -/
theorem C4_query_close_counterexample :
    (query_run ⟨true, 0⟩ true).2.openConns = 1 ∧
    ¬(query_run ⟨true, 0⟩ true).2.openConns = (⟨true, 0⟩ : QueryState).openConns := by
  decide

/-- Claim C4 amended: `query` closes its connection on the success path, but
when statement execution raises, the backend error propagates and the
acquired connection is left open (there is no try/finally around the
execute call). -/
theorem C4_query_close_amended (s : QueryState) :
    ((query_run s false).1 = Except.ok () ∧
      (query_run s false).2.openConns = s.openConns) ∧
    ((query_run s true).1 = Except.error PyErr.backendError ∧
      (query_run s true).2.openConns = s.openConns + 1) := by
  refine ⟨⟨rfl, ?_⟩, rfl, rfl⟩
  simp [query_run]

/-- Claim C5 fails on the code: `set_df` (via `__write_df`, line 71) and
`get_df` (line 103) read `self.engine` without the hasattr guard, so on an
instance without an engine they raise AttributeError instead of lazily
initializing. -/
theorem C5_lazy_init_counterexample :
    set_df_engine none = Except.error PyErr.attributeError ∧
    get_df_engine none = Except.error PyErr.attributeError ∧
    ¬set_df_engine none = Except.ok () := by
  refine ⟨rfl, rfl, ?_⟩
  intro h
  simp [set_df_engine, attr_engine] at h

/-- Claim C5 amended: `get_table_names`, `query` and `df_query` transparently
initialize the engine when it is absent, but `set_df` and `get_df` read
`self.engine` unguarded and raise AttributeError when it has not been
created; with an engine present every method proceeds. -/
theorem C5_lazy_init_amended :
    (∀ e, get_table_names_engine e = Except.ok ()) ∧
    (∀ e, query_engine e = Except.ok ()) ∧
    (∀ e, df_query_engine e = Except.ok ()) ∧
    set_df_engine none = Except.error PyErr.attributeError ∧
    get_df_engine none = Except.error PyErr.attributeError ∧
    set_df_engine (some ()) = Except.ok () ∧
    get_df_engine (some ()) = Except.ok () := by
  refine ⟨?_, ?_, ?_, rfl, rfl, rfl, rfl⟩ <;> intro e <;> cases e <;> rfl

/-- Claim C6: a chunked read that yields zero row-chunks makes `get_df`
return None (with a warning exactly when a logger is configured) rather
than raising, for any requested chunk count; a hard backend failure instead
propagates unchanged. -/
theorem C6_empty_read_returns_none :
    ∀ (α : Type) (cc : Option Nat) (hl : Bool) (e : PyErr),
      get_df (Except.ok ([] : List (List α))) cc hl = (Except.ok none, hl) ∧
      get_df (Except.error e : Except PyErr (List (List α))) cc hl = (Except.error e, false) := by
  intro α cc hl e
  constructor
  · cases cc with
    | none => rfl
    | some n => simp [get_df, islice]
  · rfl

/-- Claim C7 fails on the code: seven rows of one column with chunksize 3
split into three chunks of sizes 3, 2, 2 — the chunks are not all equal
with only the last smaller, since the second chunk is already smaller than
the first. -/
theorem C7_chunk_sizes_counterexample :
    ceilDiv (DF.size (⟨1, [0, 1, 2, 3, 4, 5, 6]⟩ : DF Nat)) 3 = 3 ∧
    ( split_df (⟨1, [0, 1, 2, 3, 4, 5, 6]⟩ : DF Nat) 3).map List.length = [3, 2, 2] ∧
    specEqualChunksLastSmaller
      (( split_df (⟨1, [0, 1, 2, 3, 4, 5, 6]⟩ : DF Nat) 3).map List.length) = false := by
  decide

/-- Claim C7 amended: the split yields `ceil(cell_count / chunksize)`
contiguous row-chunks whose concatenation reproduces the rows; following
numpy array_split, the first `row_count mod chunk_count` chunks have
`floor(row_count / chunk_count) + 1` rows and the remaining chunks one row
fewer (so larger chunks come first; sizes differ by at most one). -/
theorem C7_chunk_sizes_amended {α : Type} (d : DF α) (cs : Nat)
    (hcs : 0 < cs) (hbig : cs < d.size) :
    ( split_df d cs).length = ceilDiv d.size cs ∧
    ( split_df d cs).flatten = d.rows ∧
    ( split_df d cs).map List.length =
      (List.range (ceilDiv d.size cs)).map
        (fun i => d.rows.length / ceilDiv d.size cs +
          if i < d.rows.length % ceilDiv d.size cs then 1 else 0) := by
  have hpos : 0 < ceilDiv d.size cs := one_le_ceilDiv d.size cs (by omega) hcs
  refine ⟨array_split_length d.rows _, array_split_flatten d.rows _ hpos, ?_⟩
  unfold split_df
  rw [array_split_map_length d.rows _ hpos]
  exact arraySplitSizes_eq_map _ _

/-- Witness for the amended C7 at seven one-column rows and chunksize 3. -/
theorem C7_chunk_sizes_amended_witness :
    (0 < 3 ∧ 3 < DF.size (⟨1, [0, 1, 2, 3, 4, 5, 6]⟩ : DF Nat)) ∧
    (( split_df (⟨1, [0, 1, 2, 3, 4, 5, 6]⟩ : DF Nat) 3).length =
        ceilDiv (DF.size (⟨1, [0, 1, 2, 3, 4, 5, 6]⟩ : DF Nat)) 3 ∧
      ( split_df (⟨1, [0, 1, 2, 3, 4, 5, 6]⟩ : DF Nat) 3).flatten = [0, 1, 2, 3, 4, 5, 6] ∧
      ( split_df (⟨1, [0, 1, 2, 3, 4, 5, 6]⟩ : DF Nat) 3).map List.length =
        (List.range (ceilDiv (DF.size (⟨1, [0, 1, 2, 3, 4, 5, 6]⟩ : DF Nat)) 3)).map
          (fun i => ([0, 1, 2, 3, 4, 5, 6] : List Nat).length /
              ceilDiv (DF.size (⟨1, [0, 1, 2, 3, 4, 5, 6]⟩ : DF Nat)) 3 +
            if i < ([0, 1, 2, 3, 4, 5, 6] : List Nat).length %
                ceilDiv (DF.size (⟨1, [0, 1, 2, 3, 4, 5, 6]⟩ : DF Nat)) 3
            then 1 else 0)) :=
  ⟨⟨by decide, by decide⟩,
    C7_chunk_sizes_amended (⟨1, [0, 1, 2, 3, 4, 5, 6]⟩ : DF Nat) 3 (by decide) (by decide)⟩

/-- Claim C8: whenever `set_df` returns normally, the status boolean it
returns is true, on every path (split or unsplit, any mode, any chunksize):
failure is signalled only by a propagated exception. -/
theorem C8_status_always_true {α : Type} (table : String) (d : DF α)
    (mode : IfExists) (chunksize : Option Nat) :
    (set_df table d mode chunksize).2 = true := by
  cases chunksize with
  | none => rfl
  | some cs =>
    by_cases h : d.size > cs
    · simp only [set_df]
      rw [if_pos h]
      cases hs : split_df d cs with
      | nil => rfl
      | cons a as => rfl
    · simp only [set_df]
      rw [if_neg h]
      rfl

/-- Claim C9: calling `get_df` with chunk_count 0 takes zero chunks from the
read cursor, so it returns None (warning exactly when a logger is
configured) even when the backend yields a non-empty chunk sequence. -/
theorem C9_zero_chunk_count_returns_none :
    ∀ (α : Type) (dfs : List (List α)) (hl : Bool),
      get_df (Except.ok dfs) (some 0) hl = (Except.ok none, hl) := by
  intro α dfs hl
  simp [get_df, islice]

/-- Claim C10: the ODBC descriptor is selected exactly when the db_type value
contains the substring pyodbc; on any complete config whose db_type does
not, construction yields the standard descriptor whatever the driver field
holds (present or absent), so a missing driver cannot fail that path. -/
theorem C10_odbc_selection :
    (∀ (dbt ad u pw dbn : String) (drv : Option String), strIn "pyodbc" dbt = false →
      connInit ⟨some dbt, some ad, some u, some pw, some dbn, drv⟩ =
        Except.ok (dbt ++ "://" ++ u ++ ":" ++ pw ++ "@" ++ ad ++ "/" ++ dbn)) ∧
    (∀ dbt ad u pw dbn drv : String, strIn "pyodbc" dbt = true →
      connInit ⟨some dbt, some ad, some u, some pw, some dbn, some drv⟩ =
        Except.ok (dbt ++ ":///?odbc_connect=" ++
          quotePlus ("DRIVER=" ++ drv ++ ";SERVER=" ++ ad ++ ";DATABASE=" ++ dbn ++
            ";UID=" ++ u ++ ";PWD=" ++ pw))) :=
  ⟨fun dbt ad u pw dbn drv h => connInit_std dbt ad u pw dbn drv h,
    fun dbt ad u pw dbn drv h => connInit_odbc dbt ad u pw dbn drv h⟩

/-- Witness for C10 at the postgresql config with the driver field absent. -/
theorem C10_odbc_selection_witness :
    strIn "pyodbc" "postgresql" = false ∧
    connInit ⟨some "postgresql", some "localhost", some "u", some "p", some "testdb", none⟩ =
      Except.ok ("postgresql" ++ "://" ++ "u" ++ ":" ++ "p" ++ "@" ++ "localhost" ++ "/" ++
        "testdb") :=
  ⟨by rfl, C10_odbc_selection.1 "postgresql" "localhost" "u" "p" "testdb" none (by rfl)⟩

end Connectors
